import Mathlib

/-!
# Verification of `LinkedList.h` (singly linked list with unique pointers)

Shallow embedding of the C++ template class `LinkedList<T>` from
`src/LinkedList.h`.  A list object owns a chain of nodes via
`std::unique_ptr`; since ownership is strictly tree-shaped (each node is
owned by exactly one predecessor link, the head by the list object), the
observable state of a list is exactly the sequence of element values from
head to tail.  We embed that state as `List T`, head first, and translate
each member function body into a pure Lean function on this state.
-/

namespace LinkedListSpec

/-- The single error kind of the system.  `LinkedList<T>::peek` throws
`std::out_of_range{"Empty list: ..."}` when the list has no head; the spec
names this error kind `EmptyContainer`. -/
inductive Err where
  | EmptyContainer
  deriving DecidableEq, Repr

/-- Embedding of `LinkedList<T>::push` (LinkedList.h lines 146-151):
a new node holding `data` is allocated, its next-link takes over the
current head chain, and the new node becomes the head.  On the value
sequence this prepends `data`. -/
def push {T : Type} (data : T) (l : List T) : List T :=
  data :: l

/-- Embedding of `LinkedList<T>::pop` (LinkedList.h lines 157-168):
if `ptrHead == nullptr` it returns at once (no-op); otherwise
`ptrHead = std::move(ptrHead->ptrNext)` replaces the head by its next
link, releasing exactly the old head node. -/
def pop {T : Type} : List T → List T
  | [] => []
  | _ :: rest => rest

/-- Embedding of `LinkedList<T>::peek` (LinkedList.h lines 178-183):
if `ptrHead == nullptr` it throws (modelled as `Except.error`), otherwise
it returns a copy of `ptrHead->element`.  The member function is `const`
and assigns to nothing, so it has no state output: the list state after a
peek is the state before it. -/
def peek {T : Type} : List T → Except Err T
  | [] => Except.error Err.EmptyContainer
  | x :: _ => Except.ok x

/-- Embedding of `LinkedList<T>::clean` (LinkedList.h lines 189-197):
the loop `while (ptrHead) ptrHead = std::move(ptrHead->ptrNext);`
detaches and releases the head node one step at a time.  Each iteration
shortens the chain by one node, which is the structural recursion below;
the per-iteration work is constant (one ownership transfer), so the
teardown is iterative, not a recursion whose depth grows with the list. -/
def clean {T : Type} : List T → List T
  | [] => []
  | _ :: rest => clean rest

/-- Loop body of the copy constructor `LinkedList<T>::LinkedList(LinkedList&)`
(LinkedList.h lines 89-118): `ptrCursor` walks the source chain; for each
source node a fresh node with a copied value is allocated and appended at
the tail of the new chain (`acc` is the value sequence of the new chain
built so far, `ptrCurrNode` pointing at its last node). -/
def copyLoop {T : Type} : List T → List T → List T
  | [], acc => acc
  | x :: rest, acc => copyLoop rest (acc ++ [x])

/-- Embedding of the copy constructor `LinkedList<T>::LinkedList(LinkedList&)`
(LinkedList.h lines 89-118).  The constructor only reads the source chain
(`ptrCursor = list.ptrHead.get()`, then `ptrCursor = ptrCursor->ptrNext.get()`)
and writes only to the freshly allocated nodes of the new chain, so its
result is the pair (new list state, source state after construction),
where the source state is untouched. -/
def copyCtor {T : Type} (l : List T) : List T × List T :=
  (copyLoop l [], l)

/-- Embedding of the move constructor `LinkedList<T>::LinkedList(LinkedList&&)`
(LinkedList.h lines 125-128): `ptrHead = std::move(list.ptrHead)` transfers
the whole chain to the new list and leaves the source's head link null.
Result: (new list state, source state after construction). -/
def moveCtor {T : Type} (l : List T) : List T × List T :=
  (l, [])

/-- Rendering loop of `LinkedList<T>::print` (LinkedList.h lines 204-213):
`while (ptrCursor) { os << ptrCursor->element << " -> "; ... }`. -/
def printLoop {T : Type} [ToString T] : List T → String
  | [] => ""
  | x :: rest => toString x ++ " -> " ++ printLoop rest

/-- Embedding of `LinkedList<T>::print` (LinkedList.h lines 204-213): the
traversal loop followed by `os << "NULL" << std::endl`.  The member
function is `const` and walks the chain through raw cursors only, so it
has no state output. -/
def print {T : Type} [ToString T] (l : List T) : String :=
  printLoop l ++ "NULL" ++ "\n"

/-- Pushing the values of `vs` in order (first element of `vs` pushed
first), starting from list state `l`; e.g. the driver's
`for (i = 0; i < 10; ++i) list.push(i)`. -/
def pushAll {T : Type} (vs : List T) (l : List T) : List T :=
  vs.foldl (fun s v => push v s) l

/-- Popping `n` times in a row. -/
def popN {T : Type} : Nat → List T → List T
  | 0, l => l
  | n + 1, l => popN n (pop l)

/-! ## Basic lemmas about the embedding -/

theorem pushAll_eq_reverse_append {T : Type} (vs l : List T) :
    pushAll vs l = vs.reverse ++ l := by
  induction vs generalizing l with
  | nil => simp [pushAll]
  | cons x rest ih =>
    simp only [pushAll, List.foldl_cons, List.reverse_cons] at *
    rw [show push x l = x :: l from rfl, ih]
    simp

theorem clean_eq_nil {T : Type} (l : List T) : clean l = [] := by
  induction l with
  | nil => rfl
  | cons x rest ih => simpa [clean] using ih

theorem copyLoop_eq_append {T : Type} (l acc : List T) :
    copyLoop l acc = acc ++ l := by
  induction l generalizing acc with
  | nil => simp [copyLoop]
  | cons x rest ih => simp [copyLoop, ih]

theorem popN_length {T : Type} (l : List T) : popN l.length l = [] := by
  induction l with
  | nil => rfl
  | cons x rest ih => simpa [popN, pop] using ih

/-! ## Claims -/

/-- C1: Last-in-first-out ordering.  For every N >= 1 and every sequence of
values v1..vN pushed in that order onto an initially empty list, a
subsequent peek returns vN, the last value pushed.  (A nonempty sequence
of pushes is written `vs ++ [v]`, so `v` is the last value pushed.) -/
theorem push_then_peek_returns_last {T : Type} (v : T) (vs : List T) :
    peek (pushAll (vs ++ [v]) []) = Except.ok v := by
  rw [pushAll_eq_reverse_append]
  simp [peek]

/-- C2: `clean` terminates on every list (its embedding is a total function
whose recursion removes exactly the head node per loop iteration, the
iterative head-first detach-and-release of the source loop, with constant
work per node and no recursion into the remaining chain), and it leaves
the list empty, so a subsequent peek raises EmptyContainer; in particular
the stress list built by pushing the 100000 values 0..99999 really has
100000 nodes and cleaning it yields the empty list. -/
theorem clean_terminates_and_empties {T : Type} (l : List T) :
    clean l = []
    ∧ peek (clean l) = Except.error Err.EmptyContainer
    ∧ (pushAll (List.range 100000) ([] : List Nat)).length = 100000
    ∧ clean (pushAll (List.range 100000) ([] : List Nat)) = [] := by
  refine ⟨clean_eq_nil l, ?_, ?_, clean_eq_nil _⟩
  · rw [clean_eq_nil l]
    rfl
  · rw [pushAll_eq_reverse_append]
    simp

/-- C3: `peek` raises EmptyContainer if and only if the list has no head
(first conjunct, with the raised error forced to be `Err.EmptyContainer`,
the only constructor of the system's single error type); on a non-empty
list it returns the head node's value without touching the list — the
embedding of the `const` member has no state component because its body
assigns to nothing, so two consecutive peeks are both `peek l` and return
the same value.  Every other operation of the file (`push`, `pop`,
`clean`, `copyCtor`, `moveCtor`, `print`) returns a plain value, never an
`Except`, so no operation other than `peek` can raise. -/
theorem peek_error_iff_empty {T : Type} (l : List T) (x : T) (xs : List T) :
    (∀ e, peek l = Except.error e ↔ (l = [] ∧ e = Err.EmptyContainer))
    ∧ peek (x :: xs) = Except.ok x := by
  constructor
  · intro e
    constructor
    · intro h
      cases l with
      | nil => cases e; exact ⟨rfl, rfl⟩
      | cons y ys => simp [peek] at h
    · rintro ⟨rfl, rfl⟩
      rfl
  · rfl

/-- Witness for C3 at the empty list and at `6 :: [5]`. -/
theorem peek_error_iff_empty_witness :
    peek ([] : List Nat) = Except.error Err.EmptyContainer
    ∧ peek (6 :: [5] : List Nat) = Except.ok 6 := by
  refine ⟨?_, (peek_error_iff_empty ([] : List Nat) 6 [5]).2⟩
  exact ((peek_error_iff_empty ([] : List Nat) 6 [5]).1
    Err.EmptyContainer).2 ⟨rfl, rfl⟩

/-- C4: `pop` on the empty list is a no-op that raises nothing (its
embedding is a total function into list states, not an `Except`) and
leaves the list unchanged; on a non-empty list `x :: l` it replaces the
head by the head's next link, so exactly the old head node is released:
the result is the tail `l`, one node shorter than before. -/
theorem pop_head_or_noop {T : Type} (x : T) (l : List T) :
    pop ([] : List T) = []
    ∧ pop (x :: l) = l
    ∧ (pop (x :: l)).length + 1 = (x :: l).length
    ∧ pop (x :: l) = (x :: l).tail := by
  exact ⟨rfl, rfl, by simp [pop], rfl⟩

/-- C5: copy construction yields a new list whose head-to-tail value
sequence equals the source's sequence at the time of the copy, of the
same length.  The new chain is built by the source loop from fresh
`make_unique` allocations only, so in this embedding the two lists are
separate values sharing no state: every later operation is a function
taking one list state to a new one and leaves any other list value (in
particular the other of the two) untouched. -/
theorem copyCtor_copies_sequence {T : Type} (l : List T) :
    (copyCtor l).1 = l ∧ ((copyCtor l).1).length = l.length := by
  have h : (copyCtor l).1 = l := by
    simp [copyCtor, copyLoop_eq_append]
  exact ⟨h, by rw [h]⟩

/-- C6: move construction transfers the whole node chain: the
destination's sequence equals the source's pre-move sequence, the source
is left with its head link cleared (the empty list, on which peek raises
EmptyContainer) and remains an ordinary usable list state. -/
theorem moveCtor_transfers_chain {T : Type} (l : List T) :
    (moveCtor l).1 = l
    ∧ (moveCtor l).2 = []
    ∧ peek (moveCtor l).2 = Except.error Err.EmptyContainer := by
  exact ⟨rfl, rfl, rfl⟩

/-- C7: pushing any N values onto an initially empty list and then popping
N times leaves the list empty, and one further pop is a no-op that keeps
the list empty (and, being a total function into list states, raises
nothing). -/
theorem push_n_pop_n_empties {T : Type} (vs : List T) :
    popN vs.length (pushAll vs []) = []
    ∧ pop (popN vs.length (pushAll vs [])) = [] := by
  have h : popN vs.length (pushAll vs []) = [] := by
    rw [pushAll_eq_reverse_append]
    simpa using popN_length vs.reverse
  exact ⟨h, by rw [h]; rfl⟩

/-- C8: the driver scenario.  Pushing 0,1,...,9 in order onto an empty
list and displaying writes the line
"9 -> 8 -> 7 -> 6 -> 5 -> 4 -> 3 -> 2 -> 1 -> 0 -> NULL" (followed by the
line break of `std::endl`); after three pops the displayed line is
"6 -> 5 -> 4 -> 3 -> 2 -> 1 -> 0 -> NULL" and peek returns 6; displaying
an empty list produces just the terminal marker.  `print` is a pure
function of the list state (the `const` member only walks raw cursors),
so displaying never mutates the list. -/
theorem display_scenario :
    print (pushAll (List.range 10) ([] : List Nat)) =
      "9 -> 8 -> 7 -> 6 -> 5 -> 4 -> 3 -> 2 -> 1 -> 0 -> NULL" ++ "\n"
    ∧ print (pop (pop (pop (pushAll (List.range 10) ([] : List Nat))))) =
      "6 -> 5 -> 4 -> 3 -> 2 -> 1 -> 0 -> NULL" ++ "\n"
    ∧ peek (pop (pop (pop (pushAll (List.range 10) ([] : List Nat))))) =
      Except.ok 6
    ∧ print ([] : List Nat) = "NULL" ++ "\n" := by
  exact ⟨rfl, rfl, rfl, rfl⟩

/-- C9: copy construction never modifies the source list.  The
constructor's body walks the source chain through the read-only raw
cursor `ptrCursor` and writes only into the freshly allocated nodes of
the new chain, so its embedding returns the source state unchanged (the
second component of `copyCtor`): after serving as the source of a copy,
the list's value sequence and length are exactly what they were before,
and the new list built from it equals that untouched source. -/
theorem copyCtor_preserves_source {T : Type} (l : List T) :
    (copyCtor l).2 = l
    ∧ ((copyCtor l).2).length = l.length
    ∧ (copyCtor l).1 = (copyCtor l).2 := by
  refine ⟨rfl, rfl, ?_⟩
  simp [copyCtor, copyLoop_eq_append]

/-- C10: copy-constructing from an empty source yields an empty list: the
copy loop never runs, the new head stays null, a subsequent peek on the
copy raises EmptyContainer, and displaying the copy produces just the
terminal marker. -/
theorem copyCtor_of_empty_is_empty :
    (copyCtor ([] : List Nat)).1 = []
    ∧ peek (copyCtor ([] : List Nat)).1 = Except.error Err.EmptyContainer
    ∧ print (copyCtor ([] : List Nat)).1 = "NULL" ++ "\n" := by
  exact ⟨rfl, rfl, rfl⟩

end LinkedListSpec
